import Mathlib

/-
Verification development for the pumpguard-rs monitor.

The definitions below are a shallow embedding of the Rust sources:
  src/utils/solana.rs      (chain client)
  src/modules/whale_watcher.rs
  src/modules/token_monitor.rs
  src/modules/rug_detector.rs
  src/utils/alerts.rs
f64 SOL amounts and percentages are modelled as rationals, i64
timestamps as integers, bounded deques as lists with front = oldest
(push_back appends at the end) unless stated otherwise.
-/

namespace PumpGuard

/-! ## Chain client (src/utils/solana.rs) -/

/-- Alphabet used by the bs58 crate for base58 decoding. -/
def base58Alphabet : List Char :=
  "123456789ABCDEFGHJKLMNPQRSTUVWXYZabcdefghijkmnopqrstuvwxyz".toList

/-- Value of one base58 digit: its index in the alphabet, or none for a
character outside the alphabet. -/
def base58Val (c : Char) : Option Nat :=
  let i := base58Alphabet.indexOf c
  if i < base58Alphabet.length then some i else none

/-- True when every character of the string is a base58 digit. -/
def base58CharsOk (s : String) : Bool :=
  s.toList.all (fun c => (base58Val c).isSome)

/-- Accumulated numeric value of a base58 string (big-endian base 58). -/
def base58Acc (s : String) : Nat :=
  s.toList.foldl (fun acc c => acc * 58 + ((base58Val c).getD 0)) 0

/-- Number of bytes in the minimal big-endian representation of n. -/
def byteLen (n : Nat) : Nat :=
  if n = 0 then 0 else Nat.log 256 n + 1

/-- Number of bytes produced by base58-decoding the string: one zero byte
per leading one-character, plus the bytes of the accumulated value. -/
def base58DecodedLen (s : String) : Nat :=
  (s.toList.takeWhile (fun c => c = '1')).length + byteLen (base58Acc s)

/-- Modelled from the solana-sdk dependency: Signature implements FromStr
by base58-decoding the string and requiring exactly 64 decoded bytes; any
other string makes from_str return an error. -/
def signature_from_str_ok (s : String) : Bool :=
  base58CharsOk s && (base58DecodedLen s == 64)

/-- Outcome of one call to client.get_transaction_with_config: either a
decoded transaction or an error whose Display string is recorded. -/
inductive RpcResp (Tx : Type) where
  | ok (tx : Tx)
  | err (msg : String)
deriving DecidableEq

/-- Model of Rust str contains for the literal 429, scanning the
character list for the three-character pattern. -/
def contains429Chars : List Char → Bool
  | '4' :: '2' :: '9' :: _ => true
  | _ :: rest => contains429Chars rest
  | [] => false

/-- True when the error Display string mentions 429. -/
def contains429 (s : String) : Bool :=
  contains429Chars s.toList

/-- Retry loop of SolanaService::get_transaction, src/utils/solana.rs
lines 237 to 256.  remaining counts the retries still allowed
(max_attempts - attempts, starting at 3); resp models the outcome of the
n-th RPC call. -/
def get_transaction_loop {Tx : Type} (resp : Nat → RpcResp Tx) :
    Nat → Nat → Option Tx
  | callIdx, remaining =>
    match resp callIdx with
    | RpcResp.ok tx => some tx
    | RpcResp.err msg =>
      if contains429 msg then
        match remaining with
        | 0 => none
        | r + 1 => get_transaction_loop resp (callIdx + 1) r
      else none

/-- SolanaService::get_transaction, src/utils/solana.rs lines 224 to 257:
first Signature::from_str(signature)? (an invalid string propagates an
error to the caller), then the bounded retry loop with max_attempts = 3. -/
def get_transaction {Tx : Type} (signature : String) (resp : Nat → RpcResp Tx) :
    Except Unit (Option Tx) :=
  if signature_from_str_ok signature then
    Except.ok (get_transaction_loop resp 0 3)
  else
    Except.error ()

/-! ## Shared helpers: association maps (DashMap model) and bounded deques -/

/-- Lookup in an association list keyed by strings (DashMap get). -/
def lookupKey {α : Type} (k : String) : List (String × α) → Option α
  | [] => none
  | (k', v) :: rest => if k' = k then some v else lookupKey k rest

/-- Insert or replace by key (DashMap insert). -/
def insertKey {α : Type} (k : String) (v : α) : List (String × α) → List (String × α)
  | [] => [(k, v)]
  | (k', v') :: rest =>
    if k' = k then (k, v) :: rest else (k', v') :: insertKey k v rest

/-- Remove the entry with the given key, if present (DashMap remove). -/
def eraseKey {α : Type} (k : String) : List (String × α) → List (String × α)
  | [] => []
  | (k', v') :: rest =>
    if k' = k then rest else (k', v') :: eraseKey k rest

/-- The while-pop loop used for bounded deques: pop the oldest entry while
the length exceeds the cap. -/
def dropUntilLe {α : Type} (cap : Nat) : List α → List α
  | [] => []
  | a :: l => if (a :: l).length > cap then dropUntilLe cap l else a :: l

theorem lookupKey_insertKey_self {α : Type} (k : String) (v : α) :
    ∀ m : List (String × α), lookupKey k (insertKey k v m) = some v := by
  intro m
  induction m with
  | nil => simp [insertKey, lookupKey]
  | cons p rest ih =>
    obtain ⟨k', v'⟩ := p
    by_cases h : k' = k
    · simp [insertKey, lookupKey, h]
    · simp [insertKey, lookupKey, h, ih]

theorem length_insertKey_of_lookup_none {α : Type} (k : String) (v : α) :
    ∀ m : List (String × α), lookupKey k m = none →
      (insertKey k v m).length = m.length + 1 := by
  intro m
  induction m with
  | nil => intro _; simp [insertKey]
  | cons p rest ih =>
    obtain ⟨k', v'⟩ := p
    intro h
    by_cases hk : k' = k
    · simp [lookupKey, hk] at h
    · simp only [lookupKey, hk, if_false] at h
      simp [insertKey, hk, ih h]

theorem length_eraseKey_of_mem {α : Type} (k : String) :
    ∀ m : List (String × α), (∃ v, (k, v) ∈ m) →
      (eraseKey k m).length + 1 = m.length := by
  intro m
  induction m with
  | nil => rintro ⟨v, hv⟩; simp at hv
  | cons p rest ih =>
    obtain ⟨k', v'⟩ := p
    rintro ⟨v, hv⟩
    by_cases hk : k' = k
    · simp [eraseKey, hk]
    · have hmem : (k, v) ∈ rest := by
        rcases List.mem_cons.mp hv with h | h
        · cases h; exact absurd rfl hk
        · exact h
      simp [eraseKey, hk, ih ⟨v, hmem⟩]

theorem length_dropUntilLe {α : Type} (cap : Nat) :
    ∀ l : List α, (dropUntilLe cap l).length = min l.length cap := by
  intro l
  induction l with
  | nil => simp [dropUntilLe]
  | cons a l ih =>
    rw [dropUntilLe]
    split
    · next h => rw [ih]; simp only [List.length_cons] at h ⊢; omega
    · next h => simp only [List.length_cons] at h ⊢; omega

theorem dropUntilLe_suffix {α : Type} (cap : Nat) :
    ∀ l : List α, (dropUntilLe cap l).IsSuffix l := by
  intro l
  induction l with
  | nil => simp [dropUntilLe]
  | cons a l ih =>
    rw [dropUntilLe]
    split
    · exact ih.trans (List.suffix_cons a l)
    · exact List.suffix_rfl

theorem length_insertKey_le {α : Type} (k : String) (v : α) :
    ∀ m : List (String × α), (insertKey k v m).length ≤ m.length + 1 := by
  intro m
  induction m with
  | nil => simp [insertKey]
  | cons p rest ih =>
    obtain ⟨k', v'⟩ := p
    by_cases h : k' = k
    · simp [insertKey, h]
    · simp only [insertKey, h, if_false, List.length_cons]
      omega

theorem dropUntilLe_ne_nil {α : Type} (cap : Nat) (hcap : 0 < cap) :
    ∀ l : List α, l ≠ [] → dropUntilLe cap l ≠ [] := by
  intro l
  induction l with
  | nil => intro h; exact absurd rfl h
  | cons a l ih =>
    intro _
    rw [dropUntilLe]
    split
    · next h =>
      apply ih
      intro hnil
      rw [hnil] at h
      simp only [List.length_cons, List.length_nil] at h
      omega
    · simp

/-! ## Whale watcher (src/modules/whale_watcher.rs) -/

/-- Transaction info for whale tracking (whale_watcher.rs lines 26 to 34). -/
structure TxInfo where
  signature : String
  wallet : String
  mint : String
  tx_type : String
  amount_sol : Rat
  amount_tokens : Rat
  timestamp : Int
deriving DecidableEq

/-- Watched wallet data (whale_watcher.rs lines 37 to 45).  The
transactions deque is a list with front = oldest. -/
structure WatchedWallet where
  address : String
  label : String
  total_volume : Rat
  is_whale : Bool
  transactions : List TxInfo
  last_activity : Option String
deriving DecidableEq

/-- Whale watcher thresholds (whale_watcher.rs lines 59 to 66). -/
structure WhaleThresholds where
  whale_threshold_sol : Rat
  alert_on_accumulation : Bool
  alert_on_dump : Bool
  accumulation_window_ms : Int
  min_transactions_for_pattern : Nat
deriving DecidableEq

/-- Token movement tracking (whale_watcher.rs lines 48 to 56); the two
hash sets are modelled as lists without duplicates. -/
structure TokenMovement where
  mint : String
  buys : List TxInfo
  sells : List TxInfo
  net_flow : Rat
  unique_buyers : List String
  unique_sellers : List String
deriving DecidableEq

/-- HashSet insert: add the element unless already present. -/
def setInsert (x : String) (s : List String) : List String :=
  if x ∈ s then s else x :: s

/-- Wallet-map effect of WhaleWatcher::handle_whale_transaction,
whale_watcher.rs lines 430 to 572 (the database writes and alert sends do
not touch the map and are omitted).  nowIso is the RFC 3339 timestamp
taken inside the function. -/
def handle_whale_transaction (watched_wallets : List (String × WatchedWallet))
    (nowIso : String) (tx_info : TxInfo) : List (String × WatchedWallet) :=
  let wallet_data :=
    match lookupKey tx_info.wallet watched_wallets with
    | some w => w
    | none =>
      { address := tx_info.wallet
        label := ""
        total_volume := 0
        is_whale := true
        transactions := []
        last_activity := none }
  let wallet_data :=
    if wallet_data.is_whale then wallet_data else { wallet_data with is_whale := true }
  let wallet_data :=
    { wallet_data with
        total_volume := wallet_data.total_volume + tx_info.amount_sol
        last_activity := some nowIso
        transactions := dropUntilLe 100 (wallet_data.transactions ++ [tx_info]) }
  insertKey tx_info.wallet wallet_data watched_wallets

/-- WhaleWatcher::track_wallet_activity, whale_watcher.rs lines 574 to
610.  Note: the push to the transactions deque has no cap enforcement in
the source. -/
def track_wallet_activity (watched_wallets : List (String × WatchedWallet))
    (thresholds : WhaleThresholds) (nowIso : String) (tx_info : TxInfo) :
    List (String × WatchedWallet) :=
  let wallet_data :=
    match lookupKey tx_info.wallet watched_wallets with
    | some w => w
    | none =>
      { address := tx_info.wallet
        label := ""
        total_volume := 0
        is_whale := false
        transactions := []
        last_activity := none }
  let wallet_data :=
    { wallet_data with
        total_volume := wallet_data.total_volume + tx_info.amount_sol
        last_activity := some nowIso
        transactions := wallet_data.transactions ++ [tx_info] }
  let wallet_data :=
    if ¬wallet_data.is_whale ∧
        wallet_data.total_volume ≥ thresholds.whale_threshold_sol * 2 then
      { wallet_data with is_whale := true }
    else wallet_data
  insertKey tx_info.wallet wallet_data watched_wallets

/-- WhaleWatcher::track_token_movement, whale_watcher.rs lines 612 to
645.  nowMs is the wall-clock millisecond value used for the window
cutoff. -/
def track_token_movement (token_movements : List (String × TokenMovement))
    (thresholds : WhaleThresholds) (nowMs : Int) (tx_info : TxInfo) :
    List (String × TokenMovement) :=
  let token_data :=
    match lookupKey tx_info.mint token_movements with
    | some t => t
    | none =>
      { mint := tx_info.mint
        buys := []
        sells := []
        net_flow := 0
        unique_buyers := []
        unique_sellers := [] }
  let token_data :=
    if tx_info.tx_type = "buy" then
      { token_data with
          buys := token_data.buys ++ [tx_info]
          net_flow := token_data.net_flow + tx_info.amount_sol
          unique_buyers := setInsert tx_info.wallet token_data.unique_buyers }
    else
      { token_data with
          sells := token_data.sells ++ [tx_info]
          net_flow := token_data.net_flow - tx_info.amount_sol
          unique_sellers := setInsert tx_info.wallet token_data.unique_sellers }
  let cutoff := nowMs - thresholds.accumulation_window_ms
  let token_data :=
    { token_data with
        buys := token_data.buys.filter (fun t => decide (t.timestamp > cutoff))
        sells := token_data.sells.filter (fun t => decide (t.timestamp > cutoff)) }
  insertKey tx_info.mint token_data token_movements

/-- In-memory state touched by one parsed transaction in
WhaleWatcher::analyze_transaction. -/
structure WhaleState where
  watched_wallets : List (String × WatchedWallet)
  token_movements : List (String × TokenMovement)
deriving DecidableEq

/-- State fan-out of WhaleWatcher::analyze_transaction, whale_watcher.rs
lines 349 to 373: the whale-threshold path runs first (when amount_sol is
at least the threshold), then the unconditional wallet-activity path and
the flow path. -/
def analyze_transaction_state (st : WhaleState) (thresholds : WhaleThresholds)
    (nowIso : String) (nowMs : Int) (tx_info : TxInfo) : WhaleState :=
  let wallets :=
    if tx_info.amount_sol ≥ thresholds.whale_threshold_sol then
      handle_whale_transaction st.watched_wallets nowIso tx_info
    else st.watched_wallets
  let wallets := track_wallet_activity wallets thresholds nowIso tx_info
  let movements := track_token_movement st.token_movements thresholds nowMs tx_info
  { watched_wallets := wallets, token_movements := movements }

/-! ## Token monitor (src/modules/token_monitor.rs) -/

/-- Token information detected by the monitor (token_monitor.rs lines 24
to 34). -/
structure DetectedToken where
  mint : String
  name : String
  symbol : String
  creator : String
  created_at : String
  signature : String
  initial_liquidity : Rat
  detected_at : Int
deriving DecidableEq

/-- Token monitor filters (token_monitor.rs lines 37 to 45); the two hash
sets are modelled as lists. -/
structure TokenFilters where
  min_liquidity_sol : Rat
  max_liquidity_sol : Rat
  blacklisted_creators : List String
  whitelisted_creators : List String
  max_alerts_per_minute : Nat
  alert_new_tokens : Bool
deriving DecidableEq

/-- Rate limiter for alerts (token_monitor.rs lines 85 to 88); the
timestamps deque is a list with front = oldest, in seconds. -/
structure AlertRateLimiter where
  timestamps : List Int
  max_per_minute : Nat
deriving DecidableEq

/-- AlertRateLimiter::can_send, token_monitor.rs lines 98 to 121.  now is
the wall-clock value in seconds read inside the function; returns the
admission decision and the updated limiter. -/
def can_send (now : Int) (s : AlertRateLimiter) : Bool × AlertRateLimiter :=
  if s.max_per_minute = 0 then (true, s)
  else
    let one_minute_ago := now - 60
    let ts := s.timestamps.dropWhile (fun t => decide (t < one_minute_ago))
    if ts.length < s.max_per_minute then
      (true, { s with timestamps := ts ++ [now] })
    else
      (false, { s with timestamps := ts })

/-- Runs the rate limiter over a sequence of admission-check times;
returns the final limiter and the times at which checks were admitted. -/
def run_limiter (s : AlertRateLimiter) : List Int → AlertRateLimiter × List Int
  | [] => (s, [])
  | t :: ts =>
    let r := can_send t s
    let rest := run_limiter r.2 ts
    (rest.1, if r.1 then t :: rest.2 else rest.2)

/-- First map entry with minimal detected_at (model of the
min_by_key pass in TokenMonitor::handle_new_token). -/
def min_by_detected : List (String × DetectedToken) → Option (String × DetectedToken)
  | [] => none
  | p :: rest =>
    match min_by_detected rest with
    | none => some p
    | some q => if q.2.detected_at < p.2.detected_at then some q else some p

/-- Externally visible effects of one TokenMonitor::handle_new_token run:
database persist, in-memory insert, broadcast on the new-token channel,
alert sent, alert skipped by the rate limiter. -/
structure TokenEffects where
  persisted : Bool
  inserted : Bool
  broadcast : Bool
  alert_sent : Bool
  alert_skipped : Bool
deriving DecidableEq

/-- The no-effect outcome of a dropped event. -/
def noTokenEffects : TokenEffects :=
  { persisted := false, inserted := false, broadcast := false
    alert_sent := false, alert_skipped := false }

/-- TokenMonitor::handle_new_token, token_monitor.rs lines 265 to 385,
from the point where the transaction has been fetched and parsed into
token_info.  now is the wall-clock second used by the rate limiter.
Returns the updated token map, the updated rate limiter and the effects. -/
def handle_new_token (token_info : DetectedToken)
    (detected_tokens : List (String × DetectedToken))
    (filters : TokenFilters) (rate_limiter : AlertRateLimiter) (now : Int) :
    List (String × DetectedToken) × AlertRateLimiter × TokenEffects :=
  if (lookupKey token_info.mint detected_tokens).isSome then
    (detected_tokens, rate_limiter, noTokenEffects)
  else if token_info.creator ∈ filters.blacklisted_creators then
    (detected_tokens, rate_limiter, noTokenEffects)
  else if filters.whitelisted_creators ≠ [] ∧
      token_info.creator ∉ filters.whitelisted_creators then
    (detected_tokens, rate_limiter, noTokenEffects)
  else
    let meets_liquidity :=
      token_info.initial_liquidity ≥ filters.min_liquidity_sol ∧
        token_info.initial_liquidity ≤ filters.max_liquidity_sol
    let m := insertKey token_info.mint token_info detected_tokens
    let m :=
      if m.length > 1000 then
        match min_by_detected m with
        | some oldest => eraseKey oldest.1 m
        | none => m
      else m
    if meets_liquidity ∧ filters.alert_new_tokens then
      let r := can_send now rate_limiter
      (m, r.2,
        { persisted := true, inserted := true, broadcast := true
          alert_sent := r.1, alert_skipped := ¬r.1 })
    else
      (m, rate_limiter,
        { persisted := true, inserted := true, broadcast := true
          alert_sent := false, alert_skipped := false })

/-! ## Rug detector (src/modules/rug_detector.rs) -/

/-- Sell transaction info (rug_detector.rs lines 27 to 34). -/
structure SellInfo where
  signature : String
  wallet : String
  amount_sol : Rat
  amount_tokens : Rat
  timestamp : Int
deriving DecidableEq

/-- Alert info for rug detection (rug_detector.rs lines 37 to 42). -/
structure RugAlert where
  alert_type : String
  message : String
  severity : String
deriving DecidableEq

/-- Watched token with rug detection data (rug_detector.rs lines 45 to
60); sell_history is a list with front = oldest. -/
structure WatchedToken where
  mint : String
  name : String
  symbol : String
  creator : String
  initial_liquidity : Rat
  current_liquidity : Rat
  dev_wallet : String
  sell_history : List SellInfo
  last_check : Int
  suspicion_score : Int
  alerts : List RugAlert
  is_rugged : Bool
  rug_reason : Option String
deriving DecidableEq

/-- Rug detection thresholds (rug_detector.rs lines 63 to 71). -/
structure RugThresholds where
  lp_removal_percent : Rat
  suspicious_sell_percent : Rat
  dev_wallet_sell_alert : Bool
  max_dev_sell_percent : Rat
  min_time_between_sells : Int
  holder_concentration_alert : Rat
deriving DecidableEq

/-- Thresholds built in RugDetector::new with the default configuration
values (config.rs defaults: LP_REMOVAL_THRESHOLD_PERCENT 50,
SUSPICIOUS_SELL_PERCENT 10, DEV_WALLET_SELL_ALERT true). -/
def defaultRugThresholds : RugThresholds :=
  { lp_removal_percent := 50
    suspicious_sell_percent := 10
    dev_wallet_sell_alert := true
    max_dev_sell_percent := 20
    min_time_between_sells := 60000
    holder_concentration_alert := 80 }

/-- Parsed sell info from a transaction (rug_detector.rs lines 85 to 90). -/
structure ParsedSellInfo where
  mint : String
  wallet : String
  amount_sol : Rat
  amount_tokens : Rat
deriving DecidableEq

/-- Token state built by RugDetector::watch_token, rug_detector.rs lines
140 to 177. -/
def watch_token_state (mint name symbol creator : String)
    (initial_liquidity : Rat) (nowMs : Int) : WatchedToken :=
  { mint := mint
    name := name
    symbol := symbol
    creator := creator
    initial_liquidity := initial_liquidity
    current_liquidity := initial_liquidity
    dev_wallet := creator
    sell_history := []
    last_check := nowMs
    suspicion_score := 0
    alerts := []
    is_rugged := false
    rug_reason := none }

/-- Token-state effect of RugDetector::trigger_rug_alert, rug_detector.rs
lines 571 to 607 (counters, database write and the critical alert are
side effects outside the token). -/
def trigger_rug_alert (token : WatchedToken) (reason : String) : WatchedToken :=
  { token with is_rugged := true, rug_reason := some reason }

/-- Sells of the token within the rapid-selling window (rug_detector.rs
lines 492 to 496). -/
def recent_sells_of (thresholds : RugThresholds) (now : Int)
    (token : WatchedToken) : List SellInfo :=
  token.sell_history.filter
    (fun s => decide (now - s.timestamp < thresholds.min_time_between_sells))

/-- Block 1 of RugDetector::check_suspicious_patterns (dev wallet
selling), rug_detector.rs lines 469 to 488. -/
def dev_wallet_rule (thresholds : RugThresholds) (token : WatchedToken)
    (sell_info : ParsedSellInfo) : List RugAlert × WatchedToken :=
  if sell_info.wallet = token.dev_wallet then
    let sell_percent := sell_info.amount_tokens / 1000000000 * 100
    if sell_percent ≥ thresholds.max_dev_sell_percent then
      ([{ alert_type := "dev_dump"
          message := "Developer sold " ++ toString sell_percent ++ "% of supply"
          severity := "critical" }],
       { token with suspicion_score := token.suspicion_score + 50 })
    else if thresholds.dev_wallet_sell_alert then
      ([{ alert_type := "dev_sell"
          message := "Developer sold " ++ toString sell_info.amount_sol ++ " SOL worth"
          severity := "medium" }],
       { token with suspicion_score := token.suspicion_score + 20 })
    else ([], token)
  else ([], token)

/-- Block 2 of RugDetector::check_suspicious_patterns (rapid selling
pattern), rug_detector.rs lines 490 to 512. -/
def rapid_selling_rule (thresholds : RugThresholds) (now : Int)
    (token : WatchedToken) : List RugAlert × WatchedToken :=
  let recent_sells := recent_sells_of thresholds now token
  if recent_sells.length ≥ 3 then
    let total_sold_sol := (recent_sells.map (fun s => s.amount_sol)).sum
    if total_sold_sol > token.initial_liquidity * (3 / 10) then
      ([{ alert_type := "rapid_selling"
          message := "Rapid selling detected: " ++ toString total_sold_sol
            ++ " SOL in " ++ toString recent_sells.length ++ " txs"
          severity := "high" }],
       { token with suspicion_score := token.suspicion_score + 30 })
    else ([], token)
  else ([], token)

/-- Block 3 of RugDetector::check_suspicious_patterns (large single
sell), rug_detector.rs lines 514 to 529. -/
def large_sell_rule (thresholds : RugThresholds) (token : WatchedToken)
    (sell_info : ParsedSellInfo) : List RugAlert × WatchedToken :=
  if token.current_liquidity > 0 ∧
      sell_info.amount_sol >
        token.current_liquidity * (thresholds.suspicious_sell_percent / 100) then
    ([{ alert_type := "large_sell"
        message := "Large sell: " ++ toString sell_info.amount_sol ++ " SOL"
        severity := "medium" }],
     { token with suspicion_score := token.suspicion_score + 15 })
  else ([], token)

/-- Block 4 of RugDetector::check_suspicious_patterns (rug threshold),
rug_detector.rs lines 531 to 542. -/
def rug_threshold_check (token : WatchedToken) : WatchedToken :=
  if token.suspicion_score ≥ 80 then
    trigger_rug_alert token "High suspicion score reached"
  else token

/-- RugDetector::check_suspicious_patterns, rug_detector.rs lines 457 to
569, assembled from its four blocks in source order; the emitted
rug_alerts are recorded on the token and returned (each is also
dispatched via the alert bus).  now is the wall-clock millisecond value
read for the rapid-selling window; numeric message formatting is
abstracted by toString. -/
def check_suspicious_patterns (thresholds : RugThresholds) (now : Int)
    (token : WatchedToken) (sell_info : ParsedSellInfo) :
    WatchedToken × List RugAlert :=
  let devStep := dev_wallet_rule thresholds token sell_info
  let rapidStep := rapid_selling_rule thresholds now devStep.2
  let largeStep := large_sell_rule thresholds rapidStep.2 sell_info
  let rug_alerts := devStep.1 ++ rapidStep.1 ++ largeStep.1
  let token2 := rug_threshold_check largeStep.2
  let token2 := { token2 with alerts := token2.alerts ++ rug_alerts }
  (token2, rug_alerts)

/-- Token-state core of RugDetector::analyze_sell_transaction,
rug_detector.rs lines 369 to 412, from the point where the watched token
has been found: record the sell (cap 100), then evaluate the suspicious
patterns. -/
def analyze_sell_step (thresholds : RugThresholds) (signature : String)
    (sell_info : ParsedSellInfo) (now : Int) (token : WatchedToken) :
    WatchedToken × List RugAlert :=
  let entry : SellInfo :=
    { signature := signature
      wallet := sell_info.wallet
      amount_sol := sell_info.amount_sol
      amount_tokens := sell_info.amount_tokens
      timestamp := now }
  let token :=
    { token with sell_history := dropUntilLe 100 (token.sell_history ++ [entry]) }
  check_suspicious_patterns thresholds now token sell_info

/-- Token-state core of RugDetector::analyze_lp_removal, rug_detector.rs
lines 609 to 668, for one watched mint found in the pre token balances:
lp_change is (pre_balances[0] - post_balances[0]) / 1e9. -/
def analyze_lp_removal_step (thresholds : RugThresholds) (lp_change : Rat)
    (token : WatchedToken) : WatchedToken :=
  if token.current_liquidity > 0 ∧
      lp_change > token.current_liquidity * (thresholds.lp_removal_percent / 100) then
    trigger_rug_alert token
      ("LP removed: " ++ toString lp_change ++ " SOL")
  else token

/-- Token-state core of one health-poller iteration, rug_detector.rs
lines 304 to 331 with RugDetector::check_liquidity_health lines 670 to
707: last_check is refreshed, the bonding-curve balance becomes the
current liquidity, and a drop of at least lp_removal_percent triggers the
rug alert. -/
def check_liquidity_health_step (thresholds : RugThresholds) (now : Int)
    (balance : Rat) (token : WatchedToken) : WatchedToken :=
  let token := { token with last_check := now }
  let previous_liquidity := token.current_liquidity
  let token := { token with current_liquidity := balance }
  if previous_liquidity > 0 then
    let drop_percent := (previous_liquidity - balance) / previous_liquidity * 100
    if drop_percent ≥ thresholds.lp_removal_percent then
      trigger_rug_alert token
        ("Liquidity dropped " ++ toString drop_percent ++ "%")
    else token
  else token

/-- One rug-detector operation on a watched token. -/
inductive RugOp where
  | sell (signature : String) (sell_info : ParsedSellInfo) (now : Int)
  | lpRemoval (lp_change : Rat)
  | health (now : Int) (balance : Rat)
deriving DecidableEq

/-- Effect of one rug-detector operation on a watched token. -/
def rug_step (thresholds : RugThresholds) : RugOp → WatchedToken → WatchedToken
  | RugOp.sell signature sell_info now, token =>
    (analyze_sell_step thresholds signature sell_info now token).1
  | RugOp.lpRemoval lp_change, token =>
    analyze_lp_removal_step thresholds lp_change token
  | RugOp.health now balance, token =>
    check_liquidity_health_step thresholds now balance token

/-- Feeds a sequence of sells (signature, parsed info, wall-clock ms)
through analyze_sell_step, concatenating the emitted rug alerts. -/
def process_sells (thresholds : RugThresholds) (token : WatchedToken) :
    List (String × ParsedSellInfo × Int) → WatchedToken × List RugAlert
  | [] => (token, [])
  | (signature, sell_info, now) :: rest =>
    let r := analyze_sell_step thresholds signature sell_info now token
    let r2 := process_sells thresholds r.1 rest
    (r2.1, r.2 ++ r2.2)

/-! ## Alert service (src/utils/alerts.rs) -/

/-- Alert data structure (alerts.rs lines 15 to 24); the JSON data blob
is modelled as an opaque string. -/
structure Alert where
  id : Int
  alert_type : String
  title : String
  message : String
  data : String
  timestamp : String
deriving DecidableEq

/-- History and id-counter effect of AlertService::send_alert, alerts.rs
lines 75 to 133 (broadcast and the webhook POST do not touch the
history).  The history list has front = newest (push_front).  Returns the
new history, the next id counter and the alert that was built. -/
def send_alert (alert_history : List Alert) (next_id : Int)
    (alert_type title message data nowIso : String) :
    List Alert × Int × Alert :=
  let alert : Alert :=
    { id := next_id
      alert_type := alert_type
      title := title
      message := message
      data := data
      timestamp := nowIso }
  let history := alert :: alert_history
  let history := if history.length > 1000 then history.take 500 else history
  (history, next_id + 1, alert)

/-- AlertService::get_recent_alerts, alerts.rs lines 149 to 152. -/
def get_recent_alerts (alert_history : List Alert) (limit : Nat) : List Alert :=
  alert_history.take limit

/-! ## Claim C1: get_transaction error behaviour -/

/-- C1 counterexample: on the signature string "" (which
Signature::from_str rejects, since it decodes to 0 bytes rather than 64),
get_transaction propagates an error to its caller instead of returning
None, for any RPC behaviour - here one whose every call fails without a
429. -/
theorem c1_get_transaction_fails_on_empty_signature :
    @get_transaction Unit "" (fun _ => RpcResp.err "connection refused")
      = Except.error () := by
  have h : signature_from_str_ok "" = false := by decide
  simp [get_transaction, h]

/-- C1 amended: for every signature string accepted by
Signature::from_str, get_transaction never returns an error to its
caller; a non-429 failure on the first call returns None, and four
consecutive 429 failures (the first call plus the 3 retries) also return
None. -/
theorem c1_get_transaction_total_on_valid_signature {Tx : Type}
    (signature : String) (resp : Nat → RpcResp Tx)
    (h : signature_from_str_ok signature = true) :
    (∃ o, get_transaction signature resp = Except.ok o) ∧
      (∀ msg, resp 0 = RpcResp.err msg → contains429 msg = false →
        get_transaction signature resp = Except.ok none) ∧
      ((∀ i, i ≤ 3 → ∃ msg, resp i = RpcResp.err msg ∧ contains429 msg = true) →
        get_transaction signature resp = Except.ok none) := by
  refine ⟨⟨get_transaction_loop resp 0 3, by simp [get_transaction, h]⟩, ?_, ?_⟩
  · intro msg h0 hc
    simp [get_transaction, h, get_transaction_loop, h0, hc]
  · intro hall
    obtain ⟨m0, e0, c0⟩ := hall 0 (by omega)
    obtain ⟨m1, e1, c1⟩ := hall 1 (by omega)
    obtain ⟨m2, e2, c2⟩ := hall 2 (by omega)
    obtain ⟨m3, e3, c3⟩ := hall 3 (by omega)
    simp [get_transaction, h, get_transaction_loop, e0, c0, e1, c1, e2, c2, e3, c3]

/-- C1 witness: a concrete accepted signature (64 ones decodes to 64 zero
bytes) with an RPC that always answers a 429 error; get_transaction
returns Ok None. -/
theorem c1_get_transaction_total_witness :
    signature_from_str_ok (String.mk (List.replicate 64 '1')) = true ∧
      @get_transaction Unit (String.mk (List.replicate 64 '1'))
        (fun _ => RpcResp.err "HTTP status client error (429 Too Many Requests)")
        = Except.ok none := by
  refine ⟨by decide, ?_⟩
  exact (c1_get_transaction_total_on_valid_signature _ _ (by decide)).2.2
    (fun i _ => ⟨"HTTP status client error (429 Too Many Requests)", rfl, by decide⟩)

/-! ## Claim C10: alert history bounds and ordering -/

/-- C10: every send_alert inserts the new alert at the front of the
history, truncates to the 500 newest exactly when the length would exceed
1000, keeps the history at or under 1000 alerts, and get_recent_alerts
returns the newest first (its head is the alert just sent). -/
theorem head?_take_cons {α : Type} (n : Nat) (hn : 0 < n) (a : α) (t : List α) :
    (List.take n (a :: t)).head? = some a := by
  cases n with
  | zero => omega
  | succ k => simp

theorem c10_send_alert_history_bounds (alert_history : List Alert)
    (next_id : Int) (ty ti me da no : String) (n : Nat)
    (hlen : alert_history.length ≤ 1000) (hn : 0 < n) :
    (send_alert alert_history next_id ty ti me da no).1.head?
        = some (send_alert alert_history next_id ty ti me da no).2.2 ∧
      (send_alert alert_history next_id ty ti me da no).1.length ≤ 1000 ∧
      (alert_history.length + 1 > 1000 →
        (send_alert alert_history next_id ty ti me da no).1
          = ((send_alert alert_history next_id ty ti me da no).2.2
              :: alert_history).take 500) ∧
      (get_recent_alerts (send_alert alert_history next_id ty ti me da no).1 n).head?
        = some (send_alert alert_history next_id ty ti me da no).2.2 := by
  simp only [send_alert, get_recent_alerts, List.length_cons, gt_iff_lt]
  by_cases h : (1000 : Nat) < alert_history.length + 1
  · rw [if_pos h]
    refine ⟨head?_take_cons 500 (by omega) _ _,
      le_trans (List.length_take_le 500 _) (by omega), fun _ => rfl, ?_⟩
    rw [List.take_take]
    exact head?_take_cons _ (by omega) _ _
  · rw [if_neg h]
    refine ⟨rfl, ?_, fun hc => absurd hc h, head?_take_cons n hn _ _⟩
    simp only [List.length_cons]
    omega

/-- C10 witness: one alert sent on an empty history. -/
theorem c10_send_alert_history_bounds_witness :
    ([] : List Alert).length ≤ 1000 ∧ 0 < 1 ∧
      (send_alert [] 1 "new_token" "t" "m" "d" "now").1.head?
        = some (send_alert [] 1 "new_token" "t" "m" "d" "now").2.2 ∧
      (send_alert [] 1 "new_token" "t" "m" "d" "now").1.length ≤ 1000 := by
  have h := c10_send_alert_history_bounds [] 1 "new_token" "t" "m" "d" "now" 1
    (by decide) (by decide)
  exact ⟨by decide, by decide, h.1, h.2.1⟩

/-! ## Claim C8: dev dump and dev sell rules -/

/-- Closed form of the dev wallet rule. -/
theorem dev_wallet_rule_eq (th : RugThresholds) (token : WatchedToken)
    (sell_info : ParsedSellInfo) :
    dev_wallet_rule th token sell_info =
      ((if sell_info.wallet = token.dev_wallet then
          if sell_info.amount_tokens / 1000000000 * 100 ≥ th.max_dev_sell_percent then
            [{ alert_type := "dev_dump"
               message := "Developer sold "
                 ++ toString (sell_info.amount_tokens / 1000000000 * 100)
                 ++ "% of supply"
               severity := "critical" }]
          else if th.dev_wallet_sell_alert then
            [{ alert_type := "dev_sell"
               message := "Developer sold " ++ toString sell_info.amount_sol
                 ++ " SOL worth"
               severity := "medium" }]
          else []
        else []),
       { token with
           suspicion_score := token.suspicion_score
             + (if sell_info.wallet = token.dev_wallet then
                  if sell_info.amount_tokens / 1000000000 * 100
                      ≥ th.max_dev_sell_percent then 50
                  else if th.dev_wallet_sell_alert then 20 else 0
                else 0) }) := by
  unfold dev_wallet_rule
  split_ifs <;> simp_all

/-- Closed form of the rapid selling rule. -/
theorem rapid_selling_rule_eq (th : RugThresholds) (now : Int)
    (token : WatchedToken) :
    rapid_selling_rule th now token =
      ((if (recent_sells_of th now token).length ≥ 3 then
          if ((recent_sells_of th now token).map (fun s => s.amount_sol)).sum
              > token.initial_liquidity * (3 / 10) then
            [{ alert_type := "rapid_selling"
               message := "Rapid selling detected: "
                 ++ toString ((recent_sells_of th now token).map
                      (fun s => s.amount_sol)).sum
                 ++ " SOL in "
                 ++ toString (recent_sells_of th now token).length ++ " txs"
               severity := "high" }]
          else []
        else []),
       { token with
           suspicion_score := token.suspicion_score
             + (if (recent_sells_of th now token).length ≥ 3 then
                  if ((recent_sells_of th now token).map (fun s => s.amount_sol)).sum
                      > token.initial_liquidity * (3 / 10) then 30 else 0
                else 0) }) := by
  unfold rapid_selling_rule
  split_ifs <;> simp_all

/-- Closed form of the large single sell rule. -/
theorem large_sell_rule_eq (th : RugThresholds) (token : WatchedToken)
    (sell_info : ParsedSellInfo) :
    large_sell_rule th token sell_info =
      ((if token.current_liquidity > 0 ∧
            sell_info.amount_sol >
              token.current_liquidity * (th.suspicious_sell_percent / 100) then
          [{ alert_type := "large_sell"
             message := "Large sell: " ++ toString sell_info.amount_sol ++ " SOL"
             severity := "medium" }]
        else []),
       { token with
           suspicion_score := token.suspicion_score
             + (if token.current_liquidity > 0 ∧
                  sell_info.amount_sol >
                    token.current_liquidity * (th.suspicious_sell_percent / 100)
                then 15 else 0) }) := by
  unfold large_sell_rule
  split_ifs <;> simp_all

/-- Updating the suspicion score does not change the recent-sells
window. -/
theorem recent_sells_of_set_score (th : RugThresholds) (now : Int)
    (token : WatchedToken) (x : Int) :
    recent_sells_of th now { token with suspicion_score := x }
      = recent_sells_of th now token := rfl

/-- The rug-threshold check leaves the suspicion score unchanged. -/
theorem rug_threshold_check_score (token : WatchedToken) :
    (rug_threshold_check token).suspicion_score = token.suspicion_score := by
  unfold rug_threshold_check trigger_rug_alert
  split <;> rfl

/-- Decomposition of check_suspicious_patterns: the emitted alerts are
the concatenation of the three rule outcomes, and the suspicion score
grows by the sum of the fired rule weights. -/
theorem csp_alerts_and_score (th : RugThresholds) (now : Int)
    (token : WatchedToken) (sell_info : ParsedSellInfo) :
    (check_suspicious_patterns th now token sell_info).2
        = (if sell_info.wallet = token.dev_wallet then
             if sell_info.amount_tokens / 1000000000 * 100 ≥ th.max_dev_sell_percent then
               [{ alert_type := "dev_dump"
                  message := "Developer sold "
                    ++ toString (sell_info.amount_tokens / 1000000000 * 100)
                    ++ "% of supply"
                  severity := "critical" }]
             else if th.dev_wallet_sell_alert then
               [{ alert_type := "dev_sell"
                  message := "Developer sold " ++ toString sell_info.amount_sol
                    ++ " SOL worth"
                  severity := "medium" }]
             else []
           else [])
          ++ (if (recent_sells_of th now token).length ≥ 3 then
                if ((recent_sells_of th now token).map (fun s => s.amount_sol)).sum
                    > token.initial_liquidity * (3 / 10) then
                  [{ alert_type := "rapid_selling"
                     message := "Rapid selling detected: "
                       ++ toString ((recent_sells_of th now token).map
                            (fun s => s.amount_sol)).sum
                       ++ " SOL in "
                       ++ toString (recent_sells_of th now token).length ++ " txs"
                     severity := "high" }]
                else []
              else [])
          ++ (if token.current_liquidity > 0 ∧
                sell_info.amount_sol >
                  token.current_liquidity * (th.suspicious_sell_percent / 100) then
               [{ alert_type := "large_sell"
                  message := "Large sell: " ++ toString sell_info.amount_sol ++ " SOL"
                  severity := "medium" }]
             else []) ∧
      (check_suspicious_patterns th now token sell_info).1.suspicion_score
        = token.suspicion_score
          + (if sell_info.wallet = token.dev_wallet then
               if sell_info.amount_tokens / 1000000000 * 100
                   ≥ th.max_dev_sell_percent then 50
               else if th.dev_wallet_sell_alert then 20 else 0
             else 0)
          + (if (recent_sells_of th now token).length ≥ 3 then
               if ((recent_sells_of th now token).map (fun s => s.amount_sol)).sum
                   > token.initial_liquidity * (3 / 10) then 30 else 0
             else 0)
          + (if token.current_liquidity > 0 ∧
                sell_info.amount_sol >
                  token.current_liquidity * (th.suspicious_sell_percent / 100)
             then 15 else 0) := by
  simp only [check_suspicious_patterns, dev_wallet_rule_eq, rapid_selling_rule_eq,
    large_sell_rule_eq, recent_sells_of_set_score, rug_threshold_check_score]
  exact ⟨trivial, trivial⟩

/-- C8: on a sell by the dev wallet, rule R1 (token sell fraction at
least max_dev_sell_percent) emits exactly one critical dev_dump alert and
adds exactly 50 to the suspicion score (beyond the independent R3 and R4
contributions); otherwise, with dev_wallet_sell_alert enabled, rule R2
emits exactly one medium dev_sell alert and adds exactly 20; the two
rules never both fire on the same sell. -/
theorem c8_dev_rules (th : RugThresholds) (now : Int) (token : WatchedToken)
    (sell_info : ParsedSellInfo) (h : sell_info.wallet = token.dev_wallet) :
    (sell_info.amount_tokens / 1000000000 * 100 ≥ th.max_dev_sell_percent →
      ((check_suspicious_patterns th now token sell_info).2.countP
          (fun a => a.alert_type == "dev_dump") = 1 ∧
        (check_suspicious_patterns th now token sell_info).2.countP
          (fun a => a.alert_type == "dev_sell") = 0 ∧
        (∀ a ∈ (check_suspicious_patterns th now token sell_info).2,
          a.alert_type = "dev_dump" → a.severity = "critical") ∧
        (check_suspicious_patterns th now token sell_info).1.suspicion_score
          = token.suspicion_score + 50
            + (if (recent_sells_of th now token).length ≥ 3 then
                 if ((recent_sells_of th now token).map
                     (fun s => s.amount_sol)).sum
                     > token.initial_liquidity * (3 / 10) then 30 else 0
               else 0)
            + (if token.current_liquidity > 0 ∧
                  sell_info.amount_sol >
                    token.current_liquidity * (th.suspicious_sell_percent / 100)
               then 15 else 0))) ∧
    (¬(sell_info.amount_tokens / 1000000000 * 100 ≥ th.max_dev_sell_percent) →
      th.dev_wallet_sell_alert = true →
      ((check_suspicious_patterns th now token sell_info).2.countP
          (fun a => a.alert_type == "dev_sell") = 1 ∧
        (check_suspicious_patterns th now token sell_info).2.countP
          (fun a => a.alert_type == "dev_dump") = 0 ∧
        (∀ a ∈ (check_suspicious_patterns th now token sell_info).2,
          a.alert_type = "dev_sell" → a.severity = "medium") ∧
        (check_suspicious_patterns th now token sell_info).1.suspicion_score
          = token.suspicion_score + 20
            + (if (recent_sells_of th now token).length ≥ 3 then
                 if ((recent_sells_of th now token).map
                     (fun s => s.amount_sol)).sum
                     > token.initial_liquidity * (3 / 10) then 30 else 0
               else 0)
            + (if token.current_liquidity > 0 ∧
                  sell_info.amount_sol >
                    token.current_liquidity * (th.suspicious_sell_percent / 100)
               then 15 else 0))) ∧
    ((check_suspicious_patterns th now token sell_info).2.countP
        (fun a => a.alert_type == "dev_dump") = 0 ∨
      (check_suspicious_patterns th now token sell_info).2.countP
        (fun a => a.alert_type == "dev_sell") = 0) := by
  obtain ⟨hA, hS⟩ := csp_alerts_and_score th now token sell_info
  rw [if_pos h] at hA hS
  refine ⟨?_, ?_, ?_⟩
  · intro hdump
    rw [if_pos hdump] at hA hS
    refine ⟨?_, ?_, ?_, hS⟩
    · rw [hA]; split_ifs <;> simp
    · rw [hA]; split_ifs <;> simp
    · rw [hA]
      split_ifs <;> intro a ha hty <;> fin_cases ha <;> simp_all
  · intro hnd hda
    rw [if_neg hnd, if_pos hda] at hA hS
    refine ⟨?_, ?_, ?_, hS⟩
    · rw [hA]; split_ifs <;> simp
    · rw [hA]; split_ifs <;> simp
    · rw [hA]
      split_ifs <;> intro a ha hty <;> fin_cases ha <;> simp_all
  · by_cases hdump : sell_info.amount_tokens / 1000000000 * 100
        ≥ th.max_dev_sell_percent
    · right
      rw [if_pos hdump] at hA
      rw [hA]; split_ifs <;> simp
    · left
      rw [if_neg hdump] at hA
      rw [hA]
      by_cases hda : th.dev_wallet_sell_alert = true
      · rw [if_pos hda]; split_ifs <;> simp
      · rw [if_neg hda]; split_ifs <;> simp

/-- C8 witness: a concrete dev-wallet sell of 30 percent of supply on a
freshly watched token fires R1 alone. -/
theorem c8_dev_rules_witness :
    let token := watch_token_state "M2" "Tok" "TOK" "D" 10 0
    let sell : ParsedSellInfo :=
      { mint := "M2", wallet := "D", amount_sol := 4, amount_tokens := 300000000 }
    sell.wallet = token.dev_wallet ∧
      sell.amount_tokens / 1000000000 * 100 ≥
        defaultRugThresholds.max_dev_sell_percent ∧
      (check_suspicious_patterns defaultRugThresholds 0 token sell).2.countP
        (fun a => a.alert_type == "dev_dump") = 1 := by
  intro token sell
  refine ⟨rfl, by norm_num [defaultRugThresholds], ?_⟩
  exact ((c8_dev_rules defaultRugThresholds 0 token sell rfl).1
    (by norm_num [defaultRugThresholds])).1

/-! ## Claim C7: watched-token invariants -/

/-- The dev rule only touches the suspicion score. -/
theorem dev_rule_sell_history (th : RugThresholds) (t : WatchedToken)
    (s : ParsedSellInfo) :
    (dev_wallet_rule th t s).2.sell_history = t.sell_history := by
  rw [dev_wallet_rule_eq]

/-- The rapid-selling rule only touches the suspicion score. -/
theorem rapid_rule_sell_history (th : RugThresholds) (now : Int)
    (t : WatchedToken) :
    (rapid_selling_rule th now t).2.sell_history = t.sell_history := by
  rw [rapid_selling_rule_eq]

/-- The large-sell rule only touches the suspicion score. -/
theorem large_rule_sell_history (th : RugThresholds) (t : WatchedToken)
    (s : ParsedSellInfo) :
    (large_sell_rule th t s).2.sell_history = t.sell_history := by
  rw [large_sell_rule_eq]

/-- The rug-threshold check leaves the sell history unchanged. -/
theorem rug_threshold_check_sell_history (t : WatchedToken) :
    (rug_threshold_check t).sell_history = t.sell_history := by
  unfold rug_threshold_check trigger_rug_alert
  split <;> rfl

/-- The dev rule does not change the rugged flag. -/
theorem dev_rule_is_rugged (th : RugThresholds) (t : WatchedToken)
    (s : ParsedSellInfo) :
    (dev_wallet_rule th t s).2.is_rugged = t.is_rugged := by
  rw [dev_wallet_rule_eq]

/-- The rapid-selling rule does not change the rugged flag. -/
theorem rapid_rule_is_rugged (th : RugThresholds) (now : Int)
    (t : WatchedToken) :
    (rapid_selling_rule th now t).2.is_rugged = t.is_rugged := by
  rw [rapid_selling_rule_eq]

/-- The large-sell rule does not change the rugged flag. -/
theorem large_rule_is_rugged (th : RugThresholds) (t : WatchedToken)
    (s : ParsedSellInfo) :
    (large_sell_rule th t s).2.is_rugged = t.is_rugged := by
  rw [large_sell_rule_eq]

/-- The rug-threshold check never clears the rugged flag. -/
theorem rug_threshold_check_rugged_sticky (t : WatchedToken)
    (h : t.is_rugged = true) : (rug_threshold_check t).is_rugged = true := by
  unfold rug_threshold_check trigger_rug_alert
  split <;> simp [h]

/-- check_suspicious_patterns leaves the sell history unchanged. -/
theorem csp_sell_history (th : RugThresholds) (now : Int)
    (token : WatchedToken) (sell_info : ParsedSellInfo) :
    (check_suspicious_patterns th now token sell_info).1.sell_history
      = token.sell_history := by
  simp only [check_suspicious_patterns, rug_threshold_check_sell_history,
    large_rule_sell_history, rapid_rule_sell_history, dev_rule_sell_history]

/-- check_suspicious_patterns never clears the rugged flag. -/
theorem csp_rugged_sticky (th : RugThresholds) (now : Int)
    (token : WatchedToken) (sell_info : ParsedSellInfo)
    (h : token.is_rugged = true) :
    (check_suspicious_patterns th now token sell_info).1.is_rugged = true := by
  simp only [check_suspicious_patterns]
  apply rug_threshold_check_rugged_sticky
  rw [large_rule_is_rugged, rapid_rule_is_rugged, dev_rule_is_rugged]
  exact h

/-- check_suspicious_patterns never decreases the suspicion score. -/
theorem csp_score_mono (th : RugThresholds) (now : Int)
    (token : WatchedToken) (sell_info : ParsedSellInfo) :
    token.suspicion_score
      ≤ (check_suspicious_patterns th now token sell_info).1.suspicion_score := by
  rw [(csp_alerts_and_score th now token sell_info).2]
  split_ifs <;> omega

/-- C7: every rug-detector operation on a watched token keeps the
suspicion score non-decreasing, keeps the rugged flag sticky, and keeps
the sell history within 100 entries. -/
theorem c7_watched_token_invariants (th : RugThresholds) (op : RugOp)
    (token : WatchedToken) :
    token.suspicion_score ≤ (rug_step th op token).suspicion_score ∧
      (token.is_rugged = true → (rug_step th op token).is_rugged = true) ∧
      (token.sell_history.length ≤ 100 →
        (rug_step th op token).sell_history.length ≤ 100) := by
  cases op with
  | sell signature sell_info now =>
    refine ⟨csp_score_mono th now _ sell_info, fun h => csp_rugged_sticky th now _ sell_info h, fun _ => ?_⟩
    rw [rug_step]
    rw [analyze_sell_step]
    rw [csp_sell_history]
    simp only [length_dropUntilLe]
    omega
  | lpRemoval lp_change =>
    rw [rug_step]
    unfold analyze_lp_removal_step trigger_rug_alert
    split <;> exact ⟨le_refl _, fun h => by simp [h], fun h => h⟩
  | health now balance =>
    rw [rug_step]
    unfold check_liquidity_health_step trigger_rug_alert
    dsimp only
    split_ifs <;> exact ⟨le_refl _, fun h => by simp [h], fun h => h⟩

/-- C7 witness: one concrete dev-dump sell on a fresh token keeps all
three invariants. -/
theorem c7_watched_token_invariants_witness :
    let token := watch_token_state "M2" "Tok" "TOK" "D" 10 0
    let op := RugOp.sell "sig1"
      { mint := "M2", wallet := "D", amount_sol := 4, amount_tokens := 300000000 } 0
    token.suspicion_score
        ≤ (rug_step defaultRugThresholds op token).suspicion_score ∧
      (rug_step defaultRugThresholds op token).sell_history.length ≤ 100 := by
  intro token op
  refine ⟨(c7_watched_token_invariants defaultRugThresholds op token).1, ?_⟩
  exact (c7_watched_token_invariants defaultRugThresholds op token).2.2 (by decide)

/-! ## Claims C2 and C3: whale watcher wallet updates -/

/-- A nonempty suffix of l ++ [x] ends in x. -/
theorem suffix_concat_last {α : Type} {s l : List α} {x : α}
    (hs : s.IsSuffix (l ++ [x])) (hne : s ≠ []) : ∃ p, s = p ++ [x] := by
  obtain ⟨q, hq⟩ := hs
  rcases (List.eq_nil_or_concat s) with h | ⟨p, b, hpb⟩
  · exact absurd h hne
  · rw [List.concat_eq_append] at hpb
    subst hpb
    rw [← List.append_assoc] at hq
    have := List.append_inj' hq (by simp)
    obtain ⟨-, h2⟩ := this
    simp only [List.cons.injEq, and_true] at h2
    exact ⟨p, by rw [h2]⟩

/-- Total volume of a wallet in the map, 0 when absent. -/
def wallet_volume (m : List (String × WatchedWallet)) (addr : String) : Rat :=
  match lookupKey addr m with
  | some w => w.total_volume
  | none => 0

/-- After handle_whale_transaction the wallet entry holds the old volume
plus the transaction amount, and its deque ends with the transaction. -/
theorem handle_whale_transaction_lookup
    (m : List (String × WatchedWallet)) (nowIso : String) (tx : TxInfo) :
    ∃ w, lookupKey tx.wallet (handle_whale_transaction m nowIso tx) = some w ∧
      w.total_volume = wallet_volume m tx.wallet + tx.amount_sol ∧
      ∃ pre, w.transactions = pre ++ [tx] := by
  unfold handle_whale_transaction wallet_volume
  cases hld : lookupKey tx.wallet m with
  | none =>
    refine ⟨_, lookupKey_insertKey_self _ _ _, by simp, ?_⟩
    apply suffix_concat_last (dropUntilLe_suffix 100 _)
    exact dropUntilLe_ne_nil 100 (by omega) _ (by simp)
  | some w0 =>
    dsimp only
    split
    · refine ⟨_, lookupKey_insertKey_self _ _ _, rfl, ?_⟩
      apply suffix_concat_last (dropUntilLe_suffix 100 _)
      exact dropUntilLe_ne_nil 100 (by omega) _ (by simp)
    · refine ⟨_, lookupKey_insertKey_self _ _ _, rfl, ?_⟩
      apply suffix_concat_last (dropUntilLe_suffix 100 _)
      exact dropUntilLe_ne_nil 100 (by omega) _ (by simp)

/-- After track_wallet_activity on a present wallet, the volume grows by
the transaction amount and the transaction is appended (without cap). -/
theorem track_wallet_activity_lookup (m : List (String × WatchedWallet))
    (th : WhaleThresholds) (nowIso : String) (tx : TxInfo) (w : WatchedWallet)
    (hw : lookupKey tx.wallet m = some w) :
    ∃ w2, lookupKey tx.wallet (track_wallet_activity m th nowIso tx) = some w2 ∧
      w2.total_volume = w.total_volume + tx.amount_sol ∧
      w2.transactions = w.transactions ++ [tx] := by
  unfold track_wallet_activity
  rw [hw]
  dsimp only
  split
  · exact ⟨_, lookupKey_insertKey_self _ _ _, rfl, rfl⟩
  · exact ⟨_, lookupKey_insertKey_self _ _ _, rfl, rfl⟩

/-- C3: a parsed transaction at or above the whale threshold runs both
the whale path and the unconditional wallet-activity path, so the wallet
entry gains exactly twice the transaction amount and the TxInfo appears
twice at the end of its deque. -/
theorem c3_whale_transaction_double_counted (st : WhaleState)
    (th : WhaleThresholds) (nowIso : String) (nowMs : Int) (tx : TxInfo)
    (h : tx.amount_sol ≥ th.whale_threshold_sol) :
    ∃ w, lookupKey tx.wallet
        (analyze_transaction_state st th nowIso nowMs tx).watched_wallets
          = some w ∧
      w.total_volume = wallet_volume st.watched_wallets tx.wallet
        + 2 * tx.amount_sol ∧
      ∃ pre, w.transactions = pre ++ [tx, tx] := by
  unfold analyze_transaction_state
  rw [if_pos h]
  dsimp only
  obtain ⟨w1, hw1, hv1, pre1, ht1⟩ :=
    handle_whale_transaction_lookup st.watched_wallets nowIso tx
  obtain ⟨w2, hw2, hv2, ht2⟩ :=
    track_wallet_activity_lookup _ th nowIso tx w1 hw1
  refine ⟨w2, hw2, ?_, pre1, ?_⟩
  · rw [hv2, hv1]; ring
  · rw [ht2, ht1, List.append_assoc]; rfl

/-- C3 witness: a 60 SOL buy against a 50 SOL threshold on an empty map
yields a wallet entry with volume 120 and the transaction twice. -/
theorem c3_whale_transaction_double_counted_witness :
    (1 : Rat) * 60 ≥ 50 ∧
      ∃ w, lookupKey "W"
          (analyze_transaction_state { watched_wallets := [], token_movements := [] }
            { whale_threshold_sol := 50, alert_on_accumulation := true
              alert_on_dump := true, accumulation_window_ms := 3600000
              min_transactions_for_pattern := 3 } "iso" 0
            { signature := "s", wallet := "W", mint := "m", tx_type := "buy"
              amount_sol := 1 * 60, amount_tokens := 0, timestamp := 0 }).watched_wallets
            = some w ∧
        w.total_volume = wallet_volume [] "W" + 2 * (1 * 60) ∧
        ∃ pre, w.transactions = pre
          ++ [{ signature := "s", wallet := "W", mint := "m", tx_type := "buy"
                amount_sol := 1 * 60, amount_tokens := 0, timestamp := 0 },
              { signature := "s", wallet := "W", mint := "m", tx_type := "buy"
                amount_sol := 1 * 60, amount_tokens := 0, timestamp := 0 }] := by
  constructor
  · norm_num
  · exact c3_whale_transaction_double_counted
      { watched_wallets := [], token_movements := [] }
      { whale_threshold_sol := 50, alert_on_accumulation := true
        alert_on_dump := true, accumulation_window_ms := 3600000
        min_transactions_for_pattern := 3 } "iso" 0
      { signature := "s", wallet := "W", mint := "m", tx_type := "buy"
        amount_sol := 1 * 60, amount_tokens := 0, timestamp := 0 }
      (by norm_num)

/-- Transactions deque of a wallet in the map, empty when absent. -/
def wallet_transactions (m : List (String × WatchedWallet)) (addr : String) :
    List TxInfo :=
  match lookupKey addr m with
  | some w => w.transactions
  | none => []

/-- track_wallet_activity always appends the transaction to the wallet
deque, with no cap enforcement. -/
theorem track_wallet_activity_trans (m : List (String × WatchedWallet))
    (th : WhaleThresholds) (nowIso : String) (tx : TxInfo) :
    wallet_transactions (track_wallet_activity m th nowIso tx) tx.wallet
      = wallet_transactions m tx.wallet ++ [tx] := by
  unfold track_wallet_activity wallet_transactions
  cases hld : lookupKey tx.wallet m with
  | none =>
    dsimp only
    rw [lookupKey_insertKey_self]
    dsimp only
    split <;> rfl
  | some w0 =>
    dsimp only
    rw [lookupKey_insertKey_self]
    dsimp only
    split <;> rfl

/-- Below the whale threshold only the wallet-activity path touches the
wallet map. -/
theorem analyze_small_tx_wallets (st : WhaleState) (th : WhaleThresholds)
    (nowIso : String) (nowMs : Int) (tx : TxInfo)
    (h : ¬tx.amount_sol ≥ th.whale_threshold_sol) :
    (analyze_transaction_state st th nowIso nowMs tx).watched_wallets
      = track_wallet_activity st.watched_wallets th nowIso tx := by
  unfold analyze_transaction_state
  rw [if_neg h]

/-- Feeding n copies of one sub-threshold transaction appends n entries
to the wallet deque - one per event, never trimmed. -/
theorem fold_small_txs (th : WhaleThresholds) (nowIso : String) (nowMs : Int)
    (tx : TxInfo) (h : ¬tx.amount_sol ≥ th.whale_threshold_sol) :
    ∀ (n : Nat) (st : WhaleState),
      wallet_transactions
        ((List.replicate n tx).foldl
          (fun s t => analyze_transaction_state s th nowIso nowMs t)
          st).watched_wallets tx.wallet
        = wallet_transactions st.watched_wallets tx.wallet
            ++ List.replicate n tx := by
  intro n
  induction n with
  | zero => intro st; simp
  | succ k ih =>
    intro st
    rw [List.replicate_succ, List.foldl_cons, ih]
    rw [analyze_small_tx_wallets _ _ _ _ _ h, track_wallet_activity_trans]
    rw [List.append_assoc]
    rfl

/-- C2: the unconditional wallet-activity path appends to the
transactions deque without the cap-100 trim, so 101 sub-threshold
transactions from the same wallet leave 101 entries in its deque,
violating the claimed bound of 100. -/
theorem c2_transactions_cap_violated :
    (wallet_transactions
        ((List.replicate 101
            ({ signature := "s", wallet := "w", mint := "m", tx_type := "buy"
               amount_sol := 1, amount_tokens := 0, timestamp := 0 } : TxInfo)).foldl
          (fun st t => analyze_transaction_state st
            { whale_threshold_sol := 50, alert_on_accumulation := true
              alert_on_dump := true, accumulation_window_ms := 3600000
              min_transactions_for_pattern := 3 } "iso" 0 t)
          { watched_wallets := [], token_movements := [] }).watched_wallets
        "w").length = 101 := by
  rw [fold_small_txs _ _ _ _ (by norm_num)]
  simp [wallet_transactions, lookupKey]

/-! ## Claims C5 and C6: token detector effects and map bound -/

theorem min_by_detected_isSome :
    ∀ (m : List (String × DetectedToken)), m ≠ [] →
      ∃ p, min_by_detected m = some p := by
  intro m hm
  cases m with
  | nil => exact absurd rfl hm
  | cons q rest =>
    rw [min_by_detected]
    cases min_by_detected rest with
    | none => exact ⟨q, rfl⟩
    | some r =>
      by_cases hlt : r.2.detected_at < q.2.detected_at
      · exact ⟨r, by dsimp only; rw [if_pos hlt]⟩
      · exact ⟨q, by dsimp only; rw [if_neg hlt]⟩

theorem min_by_detected_mem :
    ∀ (m : List (String × DetectedToken)) (p : String × DetectedToken),
      min_by_detected m = some p → p ∈ m := by
  intro m
  induction m with
  | nil => intro p h; simp [min_by_detected] at h
  | cons a rest ih =>
    intro p h
    rw [min_by_detected] at h
    cases hrest : min_by_detected rest with
    | none =>
      rw [hrest] at h
      dsimp only at h
      rw [Option.some.injEq] at h
      rw [← h]
      exact List.mem_cons_self a rest
    | some r =>
      rw [hrest] at h
      dsimp only at h
      by_cases hlt : r.2.detected_at < a.2.detected_at
      · rw [if_pos hlt, Option.some.injEq] at h
        rw [← h]
        exact List.mem_cons_of_mem a (ih r hrest)
      · rw [if_neg hlt, Option.some.injEq] at h
        rw [← h]
        exact List.mem_cons_self a rest

theorem min_by_detected_le :
    ∀ (m : List (String × DetectedToken)) (p : String × DetectedToken),
      min_by_detected m = some p →
        ∀ x ∈ m, p.2.detected_at ≤ x.2.detected_at := by
  intro m
  induction m with
  | nil => intro p h; simp [min_by_detected] at h
  | cons a rest ih =>
    intro p h x hx
    rw [min_by_detected] at h
    cases hrest : min_by_detected rest with
    | none =>
      rw [hrest] at h
      dsimp only at h
      rw [Option.some.injEq] at h
      cases rest with
      | nil =>
        have hxa : x = a := List.mem_singleton.mp hx
        rw [← h, hxa]
      | cons b t =>
        obtain ⟨r, hr⟩ := min_by_detected_isSome (b :: t) (by simp)
        rw [hr] at hrest
        cases hrest
    | some r =>
      rw [hrest] at h
      dsimp only at h
      rcases List.mem_cons.mp hx with hxa | hx'
      · by_cases hlt : r.2.detected_at < a.2.detected_at
        · rw [if_pos hlt, Option.some.injEq] at h
          rw [← h, hxa]
          exact le_of_lt hlt
        · rw [if_neg hlt, Option.some.injEq] at h
          rw [← h, hxa]
      · by_cases hlt : r.2.detected_at < a.2.detected_at
        · rw [if_pos hlt, Option.some.injEq] at h
          rw [← h]
          exact ih r hrest x hx'
        · rw [if_neg hlt, Option.some.injEq] at h
          rw [← h]
          exact le_trans (not_lt.mp hlt) (ih r hrest x hx')

/-- C5: a successfully parsed, non-duplicate token is persisted, inserted
and broadcast whenever the creator is neither blacklisted nor excluded by
a non-empty whitelist, independently of the liquidity bounds and of the
alert decision; a blacklisted or whitelist-excluded creator drops the
event with no effect on the map, the limiter or the outside world. -/
theorem c5_filters_and_effects (token_info : DetectedToken)
    (m : List (String × DetectedToken)) (f : TokenFilters)
    (rl : AlertRateLimiter) (now : Int)
    (hdup : lookupKey token_info.mint m = none) :
    (token_info.creator ∈ f.blacklisted_creators →
      handle_new_token token_info m f rl now = (m, rl, noTokenEffects)) ∧
      (token_info.creator ∉ f.blacklisted_creators →
        f.whitelisted_creators ≠ [] →
        token_info.creator ∉ f.whitelisted_creators →
        handle_new_token token_info m f rl now = (m, rl, noTokenEffects)) ∧
      (token_info.creator ∉ f.blacklisted_creators →
        (f.whitelisted_creators = [] ∨ token_info.creator ∈ f.whitelisted_creators) →
        (handle_new_token token_info m f rl now).2.2.persisted = true ∧
          (handle_new_token token_info m f rl now).2.2.inserted = true ∧
          (handle_new_token token_info m f rl now).2.2.broadcast = true) := by
  unfold handle_new_token
  rw [hdup]
  simp only [Option.isSome_none, Bool.false_eq_true, if_false]
  refine ⟨fun hb => ?_, fun hnb hwne hnw => ?_, fun hnb hw => ?_⟩
  · rw [if_pos hb]
  · rw [if_neg hnb, if_pos ⟨hwne, hnw⟩]
  · rw [if_neg hnb, if_neg ?_]
    · try dsimp only
      split <;> exact ⟨rfl, rfl, rfl⟩
    · rcases hw with hw | hw
      · rintro ⟨hne, -⟩; exact hne hw
      · rintro ⟨-, hni⟩; exact hni hw

/-- C5 witness: with an empty map, a blacklisted creator is dropped while
a clean creator has its token persisted, inserted and broadcast. -/
theorem c5_filters_and_effects_witness :
    let tok : DetectedToken :=
      { mint := "M1", name := "Foo", symbol := "FOO", creator := "C1"
        created_at := "t", signature := "S1", initial_liquidity := 1
        detected_at := 5 }
    let fBlack : TokenFilters :=
      { min_liquidity_sol := 1, max_liquidity_sol := 10
        blacklisted_creators := ["C1"], whitelisted_creators := []
        max_alerts_per_minute := 10, alert_new_tokens := true }
    let fClean : TokenFilters :=
      { min_liquidity_sol := 1, max_liquidity_sol := 10
        blacklisted_creators := [], whitelisted_creators := []
        max_alerts_per_minute := 10, alert_new_tokens := true }
    let rl : AlertRateLimiter := { timestamps := [], max_per_minute := 10 }
    handle_new_token tok [] fBlack rl 0 = ([], rl, noTokenEffects) ∧
      (handle_new_token tok [] fClean rl 0).2.2.inserted = true := by
  intro tok fBlack fClean rl
  constructor
  · exact (c5_filters_and_effects tok [] fBlack rl 0 rfl).1 (by decide)
  · exact ((c5_filters_and_effects tok [] fClean rl 0 rfl).2.2
      (by decide) (Or.inl rfl)).2.1

/-- The token map after handle_new_token is either untouched (drop
branches) or the capped insertion result. -/
theorem handle_new_token_map_cases (token_info : DetectedToken)
    (m : List (String × DetectedToken)) (f : TokenFilters)
    (rl : AlertRateLimiter) (now : Int) :
    (handle_new_token token_info m f rl now).1 = m ∨
      (handle_new_token token_info m f rl now).1 =
        (if (insertKey token_info.mint token_info m).length > 1000 then
          match min_by_detected (insertKey token_info.mint token_info m) with
          | some oldest => eraseKey oldest.1 (insertKey token_info.mint token_info m)
          | none => insertKey token_info.mint token_info m
        else insertKey token_info.mint token_info m) := by
  unfold handle_new_token
  split
  · exact Or.inl rfl
  · split
    · exact Or.inl rfl
    · split
      · exact Or.inl rfl
      · dsimp only
        split
        · exact Or.inr rfl
        · exact Or.inr rfl

/-- C6: the detected-token map never exceeds 1000 entries after
handle_new_token, and when the insertion pushes the map past 1000 the
evicted entry is one of minimal detected_at. -/
theorem c6_token_map_bounded (token_info : DetectedToken)
    (m : List (String × DetectedToken)) (f : TokenFilters)
    (rl : AlertRateLimiter) (now : Int) (hlen : m.length ≤ 1000) :
    (handle_new_token token_info m f rl now).1.length ≤ 1000 ∧
      (lookupKey token_info.mint m = none →
        token_info.creator ∉ f.blacklisted_creators →
        (f.whitelisted_creators = [] ∨ token_info.creator ∈ f.whitelisted_creators) →
        (insertKey token_info.mint token_info m).length > 1000 →
        ∃ p, min_by_detected (insertKey token_info.mint token_info m) = some p ∧
          p ∈ insertKey token_info.mint token_info m ∧
          (∀ q ∈ insertKey token_info.mint token_info m,
            p.2.detected_at ≤ q.2.detected_at) ∧
          (handle_new_token token_info m f rl now).1
            = eraseKey p.1 (insertKey token_info.mint token_info m)) := by
  constructor
  · rcases handle_new_token_map_cases token_info m f rl now with hmap | hmap
    · rw [hmap]; exact hlen
    · rw [hmap]
      by_cases hgt : (insertKey token_info.mint token_info m).length > 1000
      · rw [if_pos hgt]
        obtain ⟨p, hp⟩ := min_by_detected_isSome
          (insertKey token_info.mint token_info m) (by
            intro hnil
            rw [hnil] at hgt
            simp at hgt)
        rw [hp]
        dsimp only
        have hpm := min_by_detected_mem _ p hp
        have herase := length_eraseKey_of_mem p.1
          (insertKey token_info.mint token_info m) ⟨p.2, by simpa using hpm⟩
        have hins := length_insertKey_le token_info.mint token_info m
        omega
      · rw [if_neg hgt]
        omega
  · intro hdup hnb hw hgt
    obtain ⟨p, hp⟩ := min_by_detected_isSome
      (insertKey token_info.mint token_info m) (by
        intro hnil
        rw [hnil] at hgt
        simp at hgt)
    refine ⟨p, hp, min_by_detected_mem _ p hp, min_by_detected_le _ p hp, ?_⟩
    unfold handle_new_token
    rw [hdup]
    simp only [Option.isSome_none, Bool.false_eq_true, if_false]
    rw [if_neg hnb, if_neg ?_]
    · rw [if_pos hgt, hp]
      split <;> rfl
    · rcases hw with hw | hw
      · rintro ⟨hne, -⟩; exact hne hw
      · rintro ⟨-, hni⟩; exact hni hw

/-- C6 witness: inserting a fresh token into an empty map stays within
the bound. -/
theorem c6_token_map_bounded_witness :
    (handle_new_token
        { mint := "M1", name := "Foo", symbol := "FOO", creator := "C1"
          created_at := "t", signature := "S1", initial_liquidity := 1
          detected_at := 5 } []
        { min_liquidity_sol := 1, max_liquidity_sol := 10
          blacklisted_creators := [], whitelisted_creators := []
          max_alerts_per_minute := 10, alert_new_tokens := true }
        { timestamps := [], max_per_minute := 10 } 0).1.length ≤ 1000 := by
  exact (c6_token_map_bounded _ [] _ _ 0 (by decide)).1

/-! ## Claim C9: rapid-selling rule on a four-sell burst -/

/-- C9 counterexample: four sells within 30 seconds summing to 4 SOL on a
token with initial_liquidity 10 need not fire R3 exactly once - with
amounts 3.5, 0.2, 0.2 and 0.1 SOL the window condition already holds at
the third sell (3.9 SOL over 3 sells) and holds again at the fourth, so
the rapid_selling alert fires twice; the rule has no latch. -/
theorem c9_rapid_selling_fires_twice :
    (process_sells defaultRugThresholds (watch_token_state "M3" "Tok3" "T3" "D" 10 0)
        [("t1", { mint := "M3", wallet := "W", amount_sol := 7/2, amount_tokens := 0 }, 0),
         ("t2", { mint := "M3", wallet := "W", amount_sol := 1/5, amount_tokens := 0 }, 10000),
         ("t3", { mint := "M3", wallet := "W", amount_sol := 1/5, amount_tokens := 0 }, 20000),
         ("t4", { mint := "M3", wallet := "W", amount_sol := 1/10, amount_tokens := 0 }, 30000)]).2.countP
        (fun a => a.alert_type == "rapid_selling") = 2 ∧
      (7/2 : Rat) + 1/5 + 1/5 + 1/10 = 4 := by
  constructor
  · try simp [process_sells, analyze_sell_step, check_suspicious_patterns,
      dev_wallet_rule, rapid_selling_rule, large_sell_rule, rug_threshold_check,
      trigger_rug_alert, recent_sells_of, dropUntilLe, defaultRugThresholds,
      watch_token_state, List.countP_append, List.countP_cons, List.countP_nil,
      List.filter, List.sum_cons, List.sum_nil]
    try norm_num [process_sells, analyze_sell_step, check_suspicious_patterns,
      dev_wallet_rule, rapid_selling_rule, large_sell_rule, rug_threshold_check,
      trigger_rug_alert, recent_sells_of, dropUntilLe, defaultRugThresholds,
      watch_token_state, List.countP_append, List.countP_cons, List.countP_nil,
      List.filter, List.sum_cons, List.sum_nil]
    try simp [process_sells, analyze_sell_step, check_suspicious_patterns,
      dev_wallet_rule, rapid_selling_rule, large_sell_rule, rug_threshold_check,
      trigger_rug_alert, recent_sells_of, dropUntilLe, defaultRugThresholds,
      watch_token_state, List.countP_append, List.countP_cons, List.countP_nil,
      List.filter, List.sum_cons, List.sum_nil]
    try norm_num [process_sells, analyze_sell_step, check_suspicious_patterns,
      dev_wallet_rule, rapid_selling_rule, large_sell_rule, rug_threshold_check,
      trigger_rug_alert, recent_sells_of, dropUntilLe, defaultRugThresholds,
      watch_token_state, List.countP_append, List.countP_cons, List.countP_nil,
      List.filter, List.sum_cons, List.sum_nil]
    try simp [process_sells, analyze_sell_step, check_suspicious_patterns,
      dev_wallet_rule, rapid_selling_rule, large_sell_rule, rug_threshold_check,
      trigger_rug_alert, recent_sells_of, dropUntilLe, defaultRugThresholds,
      watch_token_state, List.countP_append, List.countP_cons, List.countP_nil,
      List.filter, List.sum_cons, List.sum_nil]
    try norm_num [process_sells, analyze_sell_step, check_suspicious_patterns,
      dev_wallet_rule, rapid_selling_rule, large_sell_rule, rug_threshold_check,
      trigger_rug_alert, recent_sells_of, dropUntilLe, defaultRugThresholds,
      watch_token_state, List.countP_append, List.countP_cons, List.countP_nil,
      List.filter, List.sum_cons, List.sum_nil]
    try simp [process_sells, analyze_sell_step, check_suspicious_patterns,
      dev_wallet_rule, rapid_selling_rule, large_sell_rule, rug_threshold_check,
      trigger_rug_alert, recent_sells_of, dropUntilLe, defaultRugThresholds,
      watch_token_state, List.countP_append, List.countP_cons, List.countP_nil,
      List.filter, List.sum_cons, List.sum_nil]
    try norm_num [process_sells, analyze_sell_step, check_suspicious_patterns,
      dev_wallet_rule, rapid_selling_rule, large_sell_rule, rug_threshold_check,
      trigger_rug_alert, recent_sells_of, dropUntilLe, defaultRugThresholds,
      watch_token_state, List.countP_append, List.countP_cons, List.countP_nil,
      List.filter, List.sum_cons, List.sum_nil]
  · norm_num

/-- C9 amended: with the four sells of equal amounts (1 SOL each) within
30 seconds, R3 fires exactly once, on the fourth sell (the first three
leave the window sum at 3 SOL, not above 0.3 x 10), adding exactly 30 to
the suspicion score with a high-severity rapid_selling alert.  In
general R3 re-fires on every sell whose window satisfies the condition. -/
theorem c9_rapid_selling_equal_amounts_once :
    (process_sells defaultRugThresholds (watch_token_state "M3" "Tok3" "T3" "D" 10 0)
        [("t1", { mint := "M3", wallet := "W", amount_sol := 1, amount_tokens := 0 }, 0),
         ("t2", { mint := "M3", wallet := "W", amount_sol := 1, amount_tokens := 0 }, 10000),
         ("t3", { mint := "M3", wallet := "W", amount_sol := 1, amount_tokens := 0 }, 20000),
         ("t4", { mint := "M3", wallet := "W", amount_sol := 1, amount_tokens := 0 }, 30000)]).2.countP
        (fun a => a.alert_type == "rapid_selling") = 1 ∧
      (process_sells defaultRugThresholds (watch_token_state "M3" "Tok3" "T3" "D" 10 0)
        [("t1", { mint := "M3", wallet := "W", amount_sol := 1, amount_tokens := 0 }, 0),
         ("t2", { mint := "M3", wallet := "W", amount_sol := 1, amount_tokens := 0 }, 10000),
         ("t3", { mint := "M3", wallet := "W", amount_sol := 1, amount_tokens := 0 }, 20000)]).2.countP
        (fun a => a.alert_type == "rapid_selling") = 0 ∧
      (process_sells defaultRugThresholds (watch_token_state "M3" "Tok3" "T3" "D" 10 0)
        [("t1", { mint := "M3", wallet := "W", amount_sol := 1, amount_tokens := 0 }, 0),
         ("t2", { mint := "M3", wallet := "W", amount_sol := 1, amount_tokens := 0 }, 10000),
         ("t3", { mint := "M3", wallet := "W", amount_sol := 1, amount_tokens := 0 }, 20000),
         ("t4", { mint := "M3", wallet := "W", amount_sol := 1, amount_tokens := 0 }, 30000)]).1.suspicion_score = 30 ∧
      (∀ a ∈ (process_sells defaultRugThresholds (watch_token_state "M3" "Tok3" "T3" "D" 10 0)
        [("t1", { mint := "M3", wallet := "W", amount_sol := 1, amount_tokens := 0 }, 0),
         ("t2", { mint := "M3", wallet := "W", amount_sol := 1, amount_tokens := 0 }, 10000),
         ("t3", { mint := "M3", wallet := "W", amount_sol := 1, amount_tokens := 0 }, 20000),
         ("t4", { mint := "M3", wallet := "W", amount_sol := 1, amount_tokens := 0 }, 30000)]).2,
        a.alert_type = "rapid_selling" → a.severity = "high") := by
  refine ⟨?_, ?_, ?_, ?_⟩ <;>
  · try simp [process_sells, analyze_sell_step, check_suspicious_patterns,
      dev_wallet_rule, rapid_selling_rule, large_sell_rule, rug_threshold_check,
      trigger_rug_alert, recent_sells_of, dropUntilLe, defaultRugThresholds,
      watch_token_state, List.countP_append, List.countP_cons, List.countP_nil,
      List.filter, List.sum_cons, List.sum_nil]
    try norm_num [process_sells, analyze_sell_step, check_suspicious_patterns,
      dev_wallet_rule, rapid_selling_rule, large_sell_rule, rug_threshold_check,
      trigger_rug_alert, recent_sells_of, dropUntilLe, defaultRugThresholds,
      watch_token_state, List.countP_append, List.countP_cons, List.countP_nil,
      List.filter, List.sum_cons, List.sum_nil]
    try simp [process_sells, analyze_sell_step, check_suspicious_patterns,
      dev_wallet_rule, rapid_selling_rule, large_sell_rule, rug_threshold_check,
      trigger_rug_alert, recent_sells_of, dropUntilLe, defaultRugThresholds,
      watch_token_state, List.countP_append, List.countP_cons, List.countP_nil,
      List.filter, List.sum_cons, List.sum_nil]
    try norm_num [process_sells, analyze_sell_step, check_suspicious_patterns,
      dev_wallet_rule, rapid_selling_rule, large_sell_rule, rug_threshold_check,
      trigger_rug_alert, recent_sells_of, dropUntilLe, defaultRugThresholds,
      watch_token_state, List.countP_append, List.countP_cons, List.countP_nil,
      List.filter, List.sum_cons, List.sum_nil]
    try simp [process_sells, analyze_sell_step, check_suspicious_patterns,
      dev_wallet_rule, rapid_selling_rule, large_sell_rule, rug_threshold_check,
      trigger_rug_alert, recent_sells_of, dropUntilLe, defaultRugThresholds,
      watch_token_state, List.countP_append, List.countP_cons, List.countP_nil,
      List.filter, List.sum_cons, List.sum_nil]
    try norm_num [process_sells, analyze_sell_step, check_suspicious_patterns,
      dev_wallet_rule, rapid_selling_rule, large_sell_rule, rug_threshold_check,
      trigger_rug_alert, recent_sells_of, dropUntilLe, defaultRugThresholds,
      watch_token_state, List.countP_append, List.countP_cons, List.countP_nil,
      List.filter, List.sum_cons, List.sum_nil]
    try simp [process_sells, analyze_sell_step, check_suspicious_patterns,
      dev_wallet_rule, rapid_selling_rule, large_sell_rule, rug_threshold_check,
      trigger_rug_alert, recent_sells_of, dropUntilLe, defaultRugThresholds,
      watch_token_state, List.countP_append, List.countP_cons, List.countP_nil,
      List.filter, List.sum_cons, List.sum_nil]
    try norm_num [process_sells, analyze_sell_step, check_suspicious_patterns,
      dev_wallet_rule, rapid_selling_rule, large_sell_rule, rug_threshold_check,
      trigger_rug_alert, recent_sells_of, dropUntilLe, defaultRugThresholds,
      watch_token_state, List.countP_append, List.countP_cons, List.countP_nil,
      List.filter, List.sum_cons, List.sum_nil]

/-! ## Claim C4: sliding-window alert rate limiter -/

/-- Window membership: x lies in the closed 60-second window starting at
a. -/
def inWindow (a : Int) : Int → Bool :=
  fun x => decide (a ≤ x ∧ x ≤ a + 60)

theorem dropWhile_lt_eq_filter (c : Int) :
    ∀ l : List Int, List.Pairwise (· ≤ ·) l →
      l.dropWhile (fun t => decide (t < c))
        = l.filter (fun t => decide (c ≤ t)) := by
  intro l
  induction l with
  | nil => intro _; rfl
  | cons x l ih =>
    intro hpw
    obtain ⟨hx, hl⟩ := List.pairwise_cons.mp hpw
    by_cases hxc : x < c
    · rw [List.dropWhile_cons_of_pos (by simpa using hxc),
        List.filter_cons_of_neg (by simpa using not_le.mpr hxc)]
      exact ih hl
    · rw [List.dropWhile_cons_of_neg (by simpa using hxc),
        List.filter_cons_of_pos (by simpa using not_lt.mp hxc)]
      congr 1
      symm
      apply List.filter_eq_self.mpr
      intro y hy
      simpa using le_trans (not_lt.mp hxc) (hx y hy)

theorem filter_ge_filter_ge {c d : Int} (h : c ≤ d) :
    ∀ l : List Int,
      (l.filter (fun x => decide (c ≤ x))).filter (fun x => decide (d ≤ x))
        = l.filter (fun x => decide (d ≤ x)) := by
  intro l
  induction l with
  | nil => rfl
  | cons x l ih =>
    by_cases hd : d ≤ x
    · have hc : c ≤ x := le_trans h hd
      rw [List.filter_cons_of_pos (by simpa using hc)]
      rw [List.filter_cons_of_pos (by simpa using hd),
        List.filter_cons_of_pos (by simpa using hd), ih]
    · by_cases hc : c ≤ x
      · rw [List.filter_cons_of_pos (by simpa using hc),
          List.filter_cons_of_neg (by simpa using hd),
          List.filter_cons_of_neg (by simpa using hd), ih]
      · rw [List.filter_cons_of_neg (by simpa using hc),
          List.filter_cons_of_neg (by simpa using hd), ih]

theorem countP_mono_of_imp {α : Type} (p q : α → Bool)
    (h : ∀ x, p x = true → q x = true) :
    ∀ l : List α, l.countP p ≤ l.countP q := by
  intro l
  induction l with
  | nil => simp
  | cons x l ih =>
    rw [List.countP_cons, List.countP_cons]
    by_cases hp : p x = true
    · rw [hp, h x hp]
      omega
    · have : (if p x = true then 1 else 0) = 0 := by simp [hp]
      rw [this]
      split <;> omega

/-- Key invariant of the rate limiter: running it from a state whose
deque holds exactly the previously admitted times not older than a cutoff
below every upcoming window, any 60-second window over all admissions is
bounded by max (admissions already in the window) and max_per_minute. -/
theorem run_limiter_window_aux (m : Nat) (hm : 0 < m) :
    ∀ (times acc : List Int) (c : Int),
      List.Pairwise (· ≤ ·) times →
      List.Pairwise (· ≤ ·) acc →
      (∀ x ∈ acc, ∀ t ∈ times, x ≤ t) →
      (∀ t ∈ times, c ≤ t - 60) →
      ∀ a : Int,
        List.countP (inWindow a)
            (acc ++ (run_limiter
              { timestamps := acc.filter (fun x => decide (c ≤ x))
                max_per_minute := m } times).2)
          ≤ max (List.countP (inWindow a) acc) m := by
  intro times
  induction times with
  | nil =>
    intro acc c _ _ _ _ a
    simp only [run_limiter, List.append_nil]
    exact le_max_left _ _
  | cons t ts ih =>
    intro acc c hpwt hpwa hle hc a
    obtain ⟨htts, hpwts⟩ := List.pairwise_cons.mp hpwt
    have hct : c ≤ t - 60 := hc t (List.mem_cons_self t ts)
    have hevict :
        (acc.filter (fun x => decide (c ≤ x))).dropWhile
            (fun x => decide (x < t - 60))
          = acc.filter (fun x => decide (t - 60 ≤ x)) := by
      rw [dropWhile_lt_eq_filter (t - 60) _
        (hpwa.sublist (List.filter_sublist acc)),
        filter_ge_filter_ge hct]
    simp only [run_limiter, can_send, Nat.pos_iff_ne_zero.mp hm, if_false,
      hevict]
    by_cases hlen : (acc.filter (fun x => decide (t - 60 ≤ x))).length < m
    · rw [if_pos hlen]
      dsimp only
      rw [if_pos rfl]
      have happ :
          acc.filter (fun x => decide (t - 60 ≤ x)) ++ [t]
            = (acc ++ [t]).filter (fun x => decide (t - 60 ≤ x)) := by
        rw [List.filter_append]
        congr 1
        rw [List.filter_cons_of_pos (by simp only [decide_eq_true_eq]; omega)]
        rfl
      have ihspec := ih (acc ++ [t]) (t - 60) hpwts
        (List.pairwise_append.mpr ⟨hpwa, List.pairwise_singleton _ _,
          fun x hx y hy => by
            rw [List.mem_singleton.mp hy]
            exact hle x hx _ (List.mem_cons_self t ts)⟩)
        (fun x hx u hu => by
          rcases List.mem_append.mp hx with hx' | hx'
          · exact hle x hx' u (List.mem_cons_of_mem t hu)
          · rw [List.mem_singleton.mp hx']
            exact htts u hu)
        (fun u hu => by
          have := htts u hu
          omega)
        a
      rw [happ]
      have hassoc : acc ++ t :: (run_limiter
            { timestamps := (acc ++ [t]).filter (fun x => decide (t - 60 ≤ x))
              max_per_minute := m } ts).2
          = (acc ++ [t]) ++ (run_limiter
            { timestamps := (acc ++ [t]).filter (fun x => decide (t - 60 ≤ x))
              max_per_minute := m } ts).2 := by
        rw [List.append_assoc]
        rfl
      rw [hassoc]
      refine le_trans ihspec ?_
      by_cases hwt : inWindow a t = true
      · have hcnt : List.countP (inWindow a) acc
            ≤ List.countP (fun x => decide (t - 60 ≤ x)) acc := by
          apply countP_mono_of_imp
          intro x hx
          simp only [inWindow, decide_eq_true_eq] at hx hwt ⊢
          omega
        rw [← List.countP_eq_length_filter] at hlen
        have h1 : List.countP (inWindow a) (acc ++ [t]) ≤ m := by
          rw [List.countP_append, List.countP_cons, List.countP_nil, hwt,
            if_pos rfl]
          omega
        exact max_le (le_trans h1 (le_max_right _ _)) (le_max_right _ _)
      · have h0 : List.countP (inWindow a) (acc ++ [t])
            = List.countP (inWindow a) acc := by
          rw [List.countP_append, List.countP_cons, List.countP_nil]
          simp [hwt]
        rw [h0]
    · rw [if_neg hlen]
      dsimp only
      rw [if_neg Bool.false_ne_true]
      exact ih acc (t - 60) hpwts hpwa
        (fun x hx u hu => hle x hx u (List.mem_cons_of_mem t hu))
        (fun u hu => by have := htts u hu; omega) a

theorem foldr_min_le :
    ∀ (l : List Int) (x : Int), x ∈ l → l.foldr min 0 ≤ x := by
  intro l
  induction l with
  | nil => intro x hx; simp at hx
  | cons y l ih =>
    intro x hx
    rcases List.mem_cons.mp hx with rfl | hx'
    · exact min_le_left _ _
    · exact le_trans (min_le_right _ _) (ih x hx')

theorem run_limiter_unlimited :
    ∀ (times : List Int) (s : AlertRateLimiter), s.max_per_minute = 0 →
      (run_limiter s times).2 = times := by
  intro times
  induction times with
  | nil => intro s _; rfl
  | cons t ts ih =>
    intro s hs
    simp only [run_limiter, can_send, hs, if_pos]
    rw [ih s hs]

/-- C4: starting from a fresh limiter, when max_per_minute is positive
any closed 60-second window contains at most max_per_minute admitted
checks (each check first evicts timestamps older than 60 seconds and
admits iff fewer than max_per_minute remain); max_per_minute = 0 admits
every check.  The check times are fed in wall-clock order. -/
theorem c4_rate_limiter_window (m : Nat) (times : List Int)
    (hsort : List.Pairwise (· ≤ ·) times) :
    (0 < m → ∀ a : Int,
      List.countP (inWindow a)
        (run_limiter { timestamps := [], max_per_minute := m } times).2 ≤ m) ∧
      (run_limiter { timestamps := [], max_per_minute := 0 } times).2
        = times := by
  constructor
  · intro hm a
    have hmain := run_limiter_window_aux m hm times []
      ((times.map (fun t => t - 60)).foldr min 0) hsort
      (List.Pairwise.nil)
      (by intro x hx; simp at hx)
      (by
        intro t ht
        exact foldr_min_le _ _ (List.mem_map_of_mem _ ht))
      a
    simpa using hmain
  · exact run_limiter_unlimited times _ rfl

/-- C4 witness: limiter with max 2 fed five checks inside one minute
admits at most 2 in the window starting at 0, and the unlimited limiter
admits everything. -/
theorem c4_rate_limiter_window_witness :
    (0:Nat) < 2 ∧ List.Pairwise (· ≤ ·) ([0, 5, 10, 20, 30] : List Int) ∧
      List.countP (inWindow 0)
        (run_limiter { timestamps := [], max_per_minute := 2 }
          ([0, 5, 10, 20, 30] : List Int)).2 ≤ 2 ∧
      (run_limiter { timestamps := [], max_per_minute := 0 }
        ([0, 5, 10, 20, 30] : List Int)).2 = [0, 5, 10, 20, 30] := by
  have hsort : List.Pairwise (· ≤ ·) ([0, 5, 10, 20, 30] : List Int) := by
    decide
  have h := c4_rate_limiter_window 2 [0, 5, 10, 20, 30] hsort
  exact ⟨by omega, hsort, h.1 (by omega) 0,
    (c4_rate_limiter_window 0 [0, 5, 10, 20, 30] hsort).2⟩

end PumpGuard
